import Mathlib

/-!
Shallow embedding of the coordinator-service repository (Go):
the Bully election coordinator (`internal/election`), the leader-gated
supervision loop (`cmd/coordinator/main.go`), the health probe client
(`internal/monitor/checker.go`), the health probe server, and the
startup computation of monitored targets (`cmd/coordinator/config.go`).

Network and clock effects are passed in explicitly: each operation takes
the outcomes of its socket calls (as booleans or `Option` payloads) and
the current monotonic time (an integer; the unit is one second, matching
the constants `electionTimeout = 6` and the 2 s socket deadlines), and
returns the new state together with the externally visible effects
(messages sent, notifications emitted, containers restarted).
-/

namespace CoordinatorService

/-- `intRangeAux lo n` is the `n` consecutive integers starting at `lo`. -/
def intRangeAux (lo : Int) : Nat → List Int
  | 0 => []
  | Nat.succ n => lo :: intRangeAux (lo + 1) n

/-- The integer range `[lo, hi]` as a list, mirroring Go loops of the form
`for id := lo; id <= hi; id++`. -/
def intRange (lo hi : Int) : List Int := intRangeAux lo (hi + 1 - lo).toNat

/-! ## Election coordinator (`internal/election`, `part_001`) -/

/-- The election state held by `election.Coordinator`: the fields written by
the protocol.  `leaderID = -1` is the UNKNOWN sentinel installed by
`NewCoordinator`. -/
structure Coordinator where
  myID : Int
  totalReplicas : Int
  isLeader : Bool
  leaderID : Int
  lastHeartbeat : Int
  deriving Repr, DecidableEq

/-- `NewCoordinator`: a fresh follower with no known leader;
`lastHeartbeat` is initialised to the current time. -/
def NewCoordinator (myID totalReplicas now : Int) : Coordinator :=
  { myID := myID
    totalReplicas := totalReplicas
    isLeader := false
    leaderID := -1
    lastHeartbeat := now }

/-- The peer ids a `broadcastLeadership` call sends LEADER to:
`for id := 1; id <= totalReplicas; id++ { if id != myID { send } }`. -/
def broadcastTargets (c : Coordinator) : List Int :=
  (intRange 1 c.totalReplicas).filter (fun id => id != c.myID)

/-- The ids `startElection` sends ELECTION to:
`for id := myID + 1; id <= totalReplicas; id++`. -/
def higherIDs (c : Coordinator) : List Int :=
  intRange (c.myID + 1) c.totalReplicas

/-- What `becomeLeader` does: set the state pair, broadcast LEADER to every
other replica, start the heartbeat task, and push `true` on `leaderChan`
when the node was not leader already. -/
structure BecomeLeaderEffects where
  state : Coordinator
  leaderMsgsTo : List Int
  heartbeatStarted : Bool
  notifications : List Bool
  deriving Repr, DecidableEq

/-- `Coordinator.becomeLeader` (part_001, lines 179-198). -/
def becomeLeader (c : Coordinator) : BecomeLeaderEffects :=
  let wasLeader := c.isLeader
  let c1 : Coordinator := { c with isLeader := true, leaderID := c.myID }
  { state := c1
    leaderMsgsTo := broadcastTargets c1
    heartbeatStarted := true
    notifications := if wasLeader then [] else [true] }

/-- The effects of one `startElection` run. -/
structure ElectionEffects where
  state : Coordinator
  electionSentTo : List Int
  leaderMsgsTo : List Int
  heartbeatStarted : Bool
  notifications : List Bool
  deriving Repr, DecidableEq

/-- `Coordinator.startElection` (part_001, lines 156-176).  `okFrom j` is the
outcome of `sendMessage(j, ELECTION)`: `true` exactly when the dial and the
write succeeded and the peer replied `OK` within the read deadline. -/
def startElection (c : Coordinator) (okFrom : Int → Bool) : ElectionEffects :=
  let receivedOK := (higherIDs c).any okFrom
  if receivedOK then
    { state := c
      electionSentTo := higherIDs c
      leaderMsgsTo := []
      heartbeatStarted := false
      notifications := [] }
  else
    let r := becomeLeader c
    { state := r.state
      electionSentTo := higherIDs c
      leaderMsgsTo := r.leaderMsgsTo
      heartbeatStarted := r.heartbeatStarted
      notifications := r.notifications }

/-- The LEADER branch of `Coordinator.handleConnection` (part_001,
lines 127-148): record the heartbeat, guess `myID + 1` when no leader is
known, drop leadership, and push `false` on `leaderChan` exactly when the
node was leader.  Returns the new state and the notifications emitted. -/
def handleLeaderMsg (c : Coordinator) (now : Int) : Coordinator × List Bool :=
  let c1 : Coordinator := { c with lastHeartbeat := now }
  let wasLeader := c1.isLeader
  let c2 : Coordinator :=
    if c1.leaderID = -1 then { c1 with leaderID := c1.myID + 1 } else c1
  let c3 : Coordinator := { c2 with isLeader := false }
  (c3, if wasLeader then [false] else [])

/-- `electionTimeout` (6 seconds). -/
def electionTimeout : Int := 6

/-- The effects of one scan of the heartbeat-timeout monitor. -/
structure ScanEffects where
  state : Coordinator
  electionStarted : Bool
  deriving Repr, DecidableEq

/-- One iteration of `Coordinator.monitorElectionTimeout` (part_001,
lines 243-275): only a follower checks the timeout; on expiry it resets
`lastHeartbeat` to now (debounce), resets `leaderID` to the sentinel, and
spawns `startElection`. -/
def monitorScan (c : Coordinator) (now : Int) : ScanEffects :=
  if c.isLeader then
    { state := c, electionStarted := false }
  else if now - c.lastHeartbeat > electionTimeout then
    { state := { c with lastHeartbeat := now, leaderID := -1 }
      electionStarted := true }
  else
    { state := c, electionStarted := false }

/-- One atomic transition of the election state: receipt of a LEADER
message, a `startElection` run (covering `becomeLeader`), or one scan of
the heartbeat-timeout monitor.  These are exactly the writers of the pair
`(isLeader, leaderID)` in `part_001`. -/
inductive Step : Coordinator → Coordinator → Prop
  | leaderMsg (now : Int) {c : Coordinator} : Step c (handleLeaderMsg c now).1
  | election (okFrom : Int → Bool) {c : Coordinator} :
      Step c (startElection c okFrom).state
  | scan (now : Int) {c : Coordinator} : Step c (monitorScan c now).state

/-- The election states a replica with identity `myID` out of
`totalReplicas` can reach from `NewCoordinator`. -/
inductive Reachable (myID totalReplicas : Int) : Coordinator → Prop
  | init (now : Int) : Reachable myID totalReplicas (NewCoordinator myID totalReplicas now)
  | step {c c' : Coordinator} :
      Reachable myID totalReplicas c → Step c c' → Reachable myID totalReplicas c'

/-! ## Health probe client (`internal/monitor/checker.go`) -/

/-- The outcomes of the socket operations one `IsAlive` call performs, in
program order: the dial (with its 2 s deadline), `SetReadDeadline`, the
`PING` write, and the read into the 4-byte buffer.  `readResult = some s`
means the read returned the bytes `s` (at most 4 of them); `none` means it
failed or its deadline expired.  A later field is only consulted when every
earlier operation succeeded. -/
structure ProbeEnv where
  dialOK : Bool
  setDeadlineOK : Bool
  writeOK : Bool
  readResult : Option String
  deriving Repr, DecidableEq

/-- `HealthChecker.IsAlive` (checker.go, lines 27-66): connect, set the read
deadline, send `PING`, read, and compare the received bytes to `PONG`.
Every failure path returns `false`; the function is total and never
propagates an error. -/
def IsAlive (env : ProbeEnv) : Bool :=
  if !env.dialOK then
    false
  else if !env.setDeadlineOK then
    false
  else if !env.writeOK then
    false
  else
    match env.readResult with
    | none => false
    | some response => response == "PONG"

/-! ## Supervision loop (`cmd/coordinator/main.go`, `part_002`) -/

/-- `monitor.CheckTarget`: one probed endpoint. -/
structure CheckTarget where
  Name : String
  Host : String
  Port : String
  ContainerName : String
  deriving Repr, DecidableEq

/-- What one supervision tick did: the targets probed (in order) and the
container names passed to `RestartContainer` (in order). -/
structure TickEffects where
  probed : List CheckTarget
  restarted : List String
  deriving Repr, DecidableEq

/-- The `for _, target := range targets` body of the leader's tick
(part_002, lines 80-93): probe each target once; on a failed probe restart
its container once and move on — the restart's own success or failure is
only logged, never acted on within the tick. -/
def superviseTargets : List CheckTarget → (CheckTarget → Bool) → TickEffects
  | [], _ => { probed := [], restarted := [] }
  | t :: ts, aliveOf =>
    let rest := superviseTargets ts aliveOf
    if aliveOf t then
      { probed := t :: rest.probed, restarted := rest.restarted }
    else
      { probed := t :: rest.probed, restarted := t.ContainerName :: rest.restarted }

/-- One tick of the main monitoring loop (part_002, lines 69-106): a
non-leader skips the tick entirely; a leader runs `superviseTargets`.
`aliveOf t` is the outcome of `healthChecker.IsAlive(t.Host, t.Port)`. -/
def superviseTick (isLeader : Bool) (targets : List CheckTarget)
    (aliveOf : CheckTarget → Bool) : TickEffects :=
  if isLeader then
    superviseTargets targets aliveOf
  else
    { probed := [], restarted := [] }

/-! ## Health probe server (`part_002`, `handleHealthCheck`) -/

/-- What one health-server connection handler did: the bytes written back,
if any, and whether the connection was closed. -/
structure HealthConnEffects where
  written : Option String
  closed : Bool
  deriving Repr, DecidableEq

/-- The read in `handleHealthCheck`: the connection's 4-byte buffer receives
at most the first 4 bytes of what the client sent (`avail = none` models a
read error). -/
def healthRead (avail : Option String) : Option String :=
  avail.map (fun s => s.take 4)

/-- `handleHealthCheck` (part_002, lines 142-162): on a read error return
(closing the connection via the deferred close); otherwise write `PONG`
exactly when the bytes read are `PING`, and close either way. -/
def handleHealthCheck (readResult : Option String) : HealthConnEffects :=
  match readResult with
  | none => { written := none, closed := true }
  | some message =>
    if message == "PING" then
      { written := some "PONG", closed := true }
    else
      { written := none, closed := true }

/-! ## Monitored-target computation (`cmd/coordinator/config.go`) -/

/-- `healthPort` of `cmd/coordinator`. -/
def healthPort : String := "12346"

/-- A service entry of the parsed compose file: only `container_name` is
read. -/
structure Service where
  ContainerName : String
  deriving Repr, DecidableEq

/-- The loop body of `loadWorkersFromCompose` (config.go, lines 37-49):
skip services without an explicit container name, otherwise build a target
whose name, host and container are all the container name. -/
def workersFromServices : List Service → List CheckTarget
  | [] => []
  | s :: rest =>
    if s.ContainerName = "" then
      workersFromServices rest
    else
      { Name := s.ContainerName
        Host := s.ContainerName
        Port := healthPort
        ContainerName := s.ContainerName } :: workersFromServices rest

/-- `loadWorkersFromCompose` (config.go, lines 23-53).  `parsed` is the
result of reading and unmarshalling the compose file: `none` when either
step failed (the function then returns the error), `some services` the
parsed service list. -/
def loadWorkersFromCompose (parsed : Option (List Service)) : Option (List CheckTarget) :=
  match parsed with
  | none => none
  | some services => some (workersFromServices services)

/-- The coordinator target built for peer id `i` (config.go, lines 71-77). -/
def coordinatorTarget (i : Int) : CheckTarget :=
  { Name := "Coordinator " ++ toString i
    Host := "coordinator-" ++ toString i
    Port := healthPort
    ContainerName := "coordinator-" ++ toString i }

/-- The cross-monitoring loop of `getMonitoredNodes` (config.go,
lines 62-78): one target per replica id `1..totalReplicas`, skipping
`myID`. -/
def coordinatorTargets (myID totalReplicas : Int) : List CheckTarget :=
  (intRange 1 totalReplicas).filterMap (fun i =>
    if i = myID then none else some (coordinatorTarget i))

/-- `getMonitoredNodes` (config.go, lines 57-89): the coordinator targets,
then the worker targets when the compose file loaded; on a load failure the
warning is logged and supervision continues with the coordinators only. -/
def getMonitoredNodes (myID totalReplicas : Int)
    (parsed : Option (List Service)) : List CheckTarget :=
  let targets := coordinatorTargets myID totalReplicas
  match loadWorkersFromCompose parsed with
  | none => targets
  | some workerTargets => targets ++ workerTargets

/-- Replica 1 of 2 after it wins a solo election (peer 2 silent) and then
receives a LEADER heartbeat at time 5: demoted, yet `leaderID` still holds
its own id, because the LEADER handler only rewrites `leaderID` when it is
the UNKNOWN sentinel. -/
def demotedLeaderState : Coordinator :=
  (handleLeaderMsg (startElection (NewCoordinator 1 2 0) (fun _ => false)).state 5).1

/-! ## Range and list helper lemmas -/

theorem mem_intRangeAux {j lo : Int} {n : Nat} :
    j ∈ intRangeAux lo n ↔ lo ≤ j ∧ j < lo + (n : Int) := by
  induction n generalizing lo with
  | zero => simp [intRangeAux]
  | succ n ih => simp [intRangeAux, ih]; omega

theorem mem_intRange {lo hi j : Int} : j ∈ intRange lo hi ↔ lo ≤ j ∧ j ≤ hi := by
  rw [intRange, mem_intRangeAux]
  omega

/-! ## The claims

Each claim of the specification gets one theorem below; helper lemmas
carry no claim id. -/

/-- The invariant the election transitions actually preserve: the replica
identity is immutable, and a node that believes itself leader has recorded
its own id as the leader id. -/
theorem reachable_inv {myID totalReplicas : Int} {c : Coordinator}
    (h : Reachable myID totalReplicas c) :
    c.myID = myID ∧ (c.isLeader = true → c.leaderID = c.myID) := by
  induction h with
  | init now => exact ⟨rfl, by simp [NewCoordinator]⟩
  | @step b b1 hr hs ih =>
    cases hs with
    | leaderMsg now =>
      by_cases h : b.leaderID = -1
      · simp [handleLeaderMsg, h, ih.1]
      · simp [handleLeaderMsg, h, ih.1]
    | election okFrom =>
      by_cases h : (higherIDs b).any okFrom = true
      · simpa [startElection, h] using ih
      · constructor <;> simp [startElection, becomeLeader, h, ih.1]
    | scan now =>
      cases hc : b.isLeader with
      | true => simpa [monitorScan, hc] using ih
      | false =>
        by_cases ht : now - b.lastHeartbeat > electionTimeout
        · simp [monitorScan, hc, ht, ih.1]
        · simpa [monitorScan, hc, ht] using ih

/-- Claim C1, counterexample: the equivalence `leaderID = myID ↔ isLeader`
does not hold in every reachable state.  Replica 1 of 2 becomes leader
(no higher peer answers OK), then receives a LEADER message: the handler
demotes it but leaves `leaderID = 1`, because `leaderID` is only rewritten
when it equals the UNKNOWN sentinel `-1`. -/
theorem leaderID_iff_isLeader_cex :
    Reachable 1 2 demotedLeaderState ∧
    demotedLeaderState.isLeader = false ∧
    demotedLeaderState.leaderID = 1 ∧
    ¬ (demotedLeaderState.leaderID = 1 ↔ demotedLeaderState.isLeader = true) := by
  refine ⟨?_, rfl, rfl, by decide⟩
  exact Reachable.step
    (Reachable.step (Reachable.init 0) (Step.election (fun _ => false)))
    (Step.leaderMsg 5)

/-- Claim C1, amended: in every reachable election state the forward
direction holds — `isLeader = true` implies `leaderID = myID`.  The
converse fails after a sitting leader is demoted by a LEADER message
(see the counterexample). -/
theorem isLeader_imp_leaderID_eq_myID (myID totalReplicas : Int)
    (c : Coordinator) (h : Reachable myID totalReplicas c)
    (hl : c.isLeader = true) : c.leaderID = myID := by
  have inv := reachable_inv h
  rw [inv.2 hl, inv.1]

/-- Claim C1, witness: replica 1 of 2 right after winning a solo election
is a reachable leader state, and its `leaderID` is its own id. -/
theorem isLeader_imp_leaderID_eq_myID_witness :
    (startElection (NewCoordinator 1 2 0) (fun _ => false)).state.leaderID = 1 :=
  isLeader_imp_leaderID_eq_myID 1 2 _
    (Reachable.step (Reachable.init 0) (Step.election (fun _ => false))) rfl

/-- Claim C2: a supervision tick that fires while `isLeader` is false
probes no target and issues no restart; the number of restart calls made
by such a tick is zero. -/
theorem nonleader_tick_is_inert (targets : List CheckTarget)
    (aliveOf : CheckTarget → Bool) :
    (superviseTick false targets aliveOf).probed = [] ∧
    (superviseTick false targets aliveOf).restarted = [] ∧
    ((superviseTick false targets aliveOf).restarted).length = 0 :=
  ⟨rfl, rfl, rfl⟩

/-- Claim C3: `startElection` sends ELECTION to exactly the ids above
`myID`; if some higher peer answers OK the election state is unchanged and
nothing else happens; if no higher peer answers OK the replica sets
`isLeader = true` and `leaderID = myID`, broadcasts LEADER to every other
replica id, starts the heartbeat task, and emits a became-leader
notification exactly when it was not already leader. -/
theorem startElection_spec (c : Coordinator) (okFrom : Int → Bool) :
    (startElection c okFrom).electionSentTo = higherIDs c ∧
    (∀ j, j ∈ higherIDs c ↔ (c.myID < j ∧ j ≤ c.totalReplicas)) ∧
    ((∃ j ∈ higherIDs c, okFrom j = true) →
      startElection c okFrom =
        { state := c, electionSentTo := higherIDs c, leaderMsgsTo := [],
          heartbeatStarted := false, notifications := [] }) ∧
    ((∀ j ∈ higherIDs c, okFrom j = false) →
      ((startElection c okFrom).state =
          { c with isLeader := true, leaderID := c.myID } ∧
        (startElection c okFrom).heartbeatStarted = true ∧
        (∀ j, j ∈ (startElection c okFrom).leaderMsgsTo ↔
          (1 ≤ j ∧ j ≤ c.totalReplicas ∧ j ≠ c.myID)) ∧
        (startElection c okFrom).notifications =
          (if c.isLeader then [] else [true]))) := by
  refine ⟨?_, ?_, ?_, ?_⟩
  · unfold startElection
    by_cases h : (higherIDs c).any okFrom <;> simp [h]
  · intro j
    rw [higherIDs, mem_intRange]
    omega
  · intro h
    have hany : (higherIDs c).any okFrom = true := List.any_eq_true.mpr h
    simp [startElection, hany]
  · intro h
    have hany : (higherIDs c).any okFrom = false := by
      rw [List.any_eq_false]
      intro j hj
      simp [h j hj]
    simp only [startElection, hany, Bool.false_eq_true, if_false]
    refine ⟨rfl, rfl, fun j => ?_, rfl⟩
    show j ∈ broadcastTargets _ ↔ _
    rw [broadcastTargets, List.mem_filter, mem_intRange]
    simp [bne_iff_ne, and_assoc]

/-- Claim C4: on a LEADER message the handler records `now` in
`lastHeartbeat`, rewrites `leaderID` to `myID + 1` exactly when it was the
UNKNOWN sentinel, always ends with `isLeader = false`, and emits exactly
one lost-leadership notification when the node was leader and none when it
was already a follower. -/
theorem handleLeaderMsg_spec (c : Coordinator) (now : Int) :
    (handleLeaderMsg c now).1.lastHeartbeat = now ∧
    (handleLeaderMsg c now).1.leaderID =
      (if c.leaderID = -1 then c.myID + 1 else c.leaderID) ∧
    (handleLeaderMsg c now).1.isLeader = false ∧
    (handleLeaderMsg c now).2 = (if c.isLeader then [false] else []) ∧
    ((handleLeaderMsg c now).2).length = (if c.isLeader then 1 else 0) := by
  unfold handleLeaderMsg
  by_cases h : c.leaderID = -1 <;> cases hc : c.isLeader <;> simp [h, hc]

/-- Claim C5: the probe returns `true` exactly when the dial, the deadline
setup and the PING write succeeded and the read returned exactly the bytes
PONG; every I/O failure and every mismatched payload yields `false` — the
function is total, so no error ever reaches the caller. -/
theorem IsAlive_iff (env : ProbeEnv) :
    IsAlive env = true ↔
      env.dialOK = true ∧ env.setDeadlineOK = true ∧ env.writeOK = true ∧
      env.readResult = some "PONG" := by
  rcases env with ⟨d, sd, w, r⟩
  cases d <;> cases sd <;> cases w <;> cases r <;> simp [IsAlive]

theorem superviseTargets_probed_restarted (targets : List CheckTarget)
    (aliveOf : CheckTarget → Bool) :
    (superviseTargets targets aliveOf).probed = targets ∧
    (superviseTargets targets aliveOf).restarted =
      (targets.filter (fun t => !aliveOf t)).map (fun t => t.ContainerName) := by
  induction targets with
  | nil => exact ⟨rfl, rfl⟩
  | cons t ts ih =>
    by_cases h : aliveOf t = true <;>
      simp [superviseTargets, h, ih.1, ih.2]

/-- Claim C6: a tick run as leader probes each target in the list exactly
once (the probe list is the target list itself), restarts exactly the
containers of the targets whose probe failed — one restart per failing
entry, none for a healthy one — and the restart count per container name
equals the number of failing entries carrying it, independently of whether
the restarts themselves succeed (a failed restart is not retried). -/
theorem leader_tick_spec (targets : List CheckTarget)
    (aliveOf : CheckTarget → Bool) :
    (superviseTick true targets aliveOf).probed = targets ∧
    (superviseTick true targets aliveOf).restarted =
      (targets.filter (fun t => !aliveOf t)).map (fun t => t.ContainerName) ∧
    (∀ c, ((superviseTick true targets aliveOf).restarted).count c =
      targets.countP (fun t => !aliveOf t && (t.ContainerName == c))) := by
  have h := superviseTargets_probed_restarted targets aliveOf
  refine ⟨h.1, h.2, fun c => ?_⟩
  show ((superviseTargets targets aliveOf).restarted).count c = _
  rw [h.2, List.count_eq_countP, List.countP_map, List.countP_filter]
  congr 1
  funext t
  simp [Function.comp, Bool.and_comm]

/-- Claim C7: a monitor scan fires exactly when the node is a follower and
more than `electionTimeout` elapsed since the last heartbeat; it then
resets `lastHeartbeat` to now and `leaderID` to the sentinel and starts an
election, otherwise it changes nothing; and after a firing scan no scan
within the next `electionTimeout` window fires again (the debounce). -/
theorem monitorScan_spec (c : Coordinator) (now : Int) :
    ((c.isLeader = false ∧ now - c.lastHeartbeat > electionTimeout) →
      monitorScan c now =
        { state := { c with lastHeartbeat := now, leaderID := -1 },
          electionStarted := true }) ∧
    ((c.isLeader = true ∨ now - c.lastHeartbeat ≤ electionTimeout) →
      monitorScan c now = { state := c, electionStarted := false }) ∧
    ((monitorScan c now).electionStarted = true →
      ∀ now1, now1 - now ≤ electionTimeout →
        (monitorScan (monitorScan c now).state now1).electionStarted = false) := by
  refine ⟨?_, ?_, ?_⟩
  · rintro ⟨h1, h2⟩
    simp [monitorScan, h1, h2]
  · rintro (h | h)
    · simp [monitorScan, h]
    · have hn : ¬ (now - c.lastHeartbeat > electionTimeout) := by omega
      cases hc : c.isLeader <;> simp [monitorScan, hc, hn]
  · intro hfired now1 h1
    by_cases hc : c.isLeader
    · simp [monitorScan, hc] at hfired
    · by_cases ht : now - c.lastHeartbeat > electionTimeout
      · have hstate : (monitorScan c now).state =
            { c with lastHeartbeat := now, leaderID := -1 } := by
          simp [monitorScan, hc, ht]
        have hn : ¬ (now1 - now > electionTimeout) := by omega
        rw [hstate]
        simp [monitorScan, hc, hn]
      · simp [monitorScan, hc, ht] at hfired

/-- Claim C8: the health handler reads at most 4 bytes, answers PONG
exactly when the bytes read are PING, writes nothing on any other payload
or on a read error, and the connection is closed on every exit path. -/
theorem handleHealthCheck_spec (avail : Option String) :
    (handleHealthCheck (healthRead avail)).closed = true ∧
    ((handleHealthCheck (healthRead avail)).written = some "PONG" ↔
      healthRead avail = some "PING") ∧
    ((handleHealthCheck (healthRead avail)).written = some "PONG" ∨
      (handleHealthCheck (healthRead avail)).written = none) ∧
    (∀ s, healthRead avail = some s → s.length ≤ 4) := by
  rcases avail with _ | s
  · simp [healthRead, handleHealthCheck]
  · have h4 : (s.take 4).length ≤ 4 := by
      rw [String.take_eq]
      show (s.1.take 4).length ≤ 4
      simp [List.length_take]
    by_cases h : s.take 4 = "PING"
    · simp [healthRead, handleHealthCheck, h, h ▸ h4]
    · simp [healthRead, handleHealthCheck, h, h4]

theorem coordinatorTargets_eq_map_filter (myID : Int) (l : List Int) :
    l.filterMap (fun i => if i = myID then none else some (coordinatorTarget i)) =
      (l.filter (fun i => !(i == myID))).map coordinatorTarget := by
  induction l with
  | nil => rfl
  | cons a l ih => by_cases h : a = myID <;> simp [h, ih]

/-- Claim C9, counterexample: with `myID = 1` and one replica, no
coordinator target is generated, yet when the compose roster itself names
the container `coordinator-1` — the container of replica 1 — the final
list contains a target for the replica itself, so the claim that a self
target never appears is false as stated. -/
theorem getMonitoredNodes_self_target_cex :
    (coordinatorTarget 1).ContainerName = "coordinator-1" ∧
    coordinatorTargets 1 1 = [] ∧
    getMonitoredNodes 1 1 (some [{ ContainerName := "coordinator-1" }]) =
      [{ Name := "coordinator-1", Host := "coordinator-1", Port := "12346",
         ContainerName := "coordinator-1" }] := by
  refine ⟨rfl, rfl, rfl⟩

/-- Claim C9, amended: the monitored-target list is the coordinator
targets — one per id `1..totalReplicas` except `myID`, each with name
`Coordinator i`, host and container `coordinator-i` and the health port —
followed by the worker targets; no coordinator target is generated for the
replica itself (a self target can only come from the compose roster). -/
theorem getMonitoredNodes_structure (myID totalReplicas : Int)
    (parsed : Option (List Service)) :
    getMonitoredNodes myID totalReplicas parsed =
      coordinatorTargets myID totalReplicas ++
        (loadWorkersFromCompose parsed).getD [] ∧
    coordinatorTargets myID totalReplicas =
      ((intRange 1 totalReplicas).filter (fun i => !(i == myID))).map
        coordinatorTarget ∧
    (∀ i : Int, (coordinatorTarget i).Name = "Coordinator " ++ toString i ∧
      (coordinatorTarget i).Host = "coordinator-" ++ toString i ∧
      (coordinatorTarget i).Port = healthPort ∧
      (coordinatorTarget i).ContainerName = "coordinator-" ++ toString i) ∧
    myID ∉ (intRange 1 totalReplicas).filter (fun i => !(i == myID)) := by
  refine ⟨?_, ?_, fun i => ⟨rfl, rfl, rfl, rfl⟩, ?_⟩
  · cases parsed <;> simp [getMonitoredNodes, loadWorkersFromCompose]
  · exact coordinatorTargets_eq_map_filter myID (intRange 1 totalReplicas)
  · intro hmem
    rw [List.mem_filter] at hmem
    simp at hmem

/-- Claim C10: when the compose file cannot be read or parsed the target
computation still returns the coordinator targets (supervision continues
with no worker targets), and a compose service with an empty container
name is excluded from the worker targets. -/
theorem getMonitoredNodes_compose_failure (myID totalReplicas : Int)
    (services : List Service) :
    getMonitoredNodes myID totalReplicas none =
      coordinatorTargets myID totalReplicas ∧
    workersFromServices services =
      (services.filter (fun s => !(s.ContainerName == ""))).map (fun s =>
        { Name := s.ContainerName, Host := s.ContainerName, Port := healthPort,
          ContainerName := s.ContainerName }) ∧
    (∀ t ∈ workersFromServices services, t.ContainerName ≠ "") := by
  refine ⟨rfl, ?_, ?_⟩
  · induction services with
    | nil => rfl
    | cons s rest ih => by_cases h : s.ContainerName = "" <;>
        simp [workersFromServices, h, ih]
  · intro t ht
    induction services with
    | nil => simp [workersFromServices] at ht
    | cons s rest ih =>
      by_cases h : s.ContainerName = ""
      · rw [workersFromServices, if_pos h] at ht
        exact ih ht
      · rw [workersFromServices, if_neg h] at ht
        rcases List.mem_cons.mp ht with rfl | hmem
        · exact h
        · exact ih hmem

end CoordinatorService
